import Mathlib

/-!
Verification development for the `py-bikeshed` RPC exception-wrapping
library.  The Python sources live in two near-duplicate modules,
`shed.rpctools` (files `exc_tools.py`, `rpcwrap.py`) and
`gomma.rpctools` (file `exc_tools.py`).  We embed both modules
shallowly: Python dicts whose key sets are fixed by the code become
structures / inductives, optional keys become `Option` fields, raising
code returns `Option` or `Except`, and the CPython standard-library
helpers the code calls (`traceback.TracebackException.from_exception`,
`traceback.format_exception`, `importlib.import_module`) are modelled
as explicit Lean functions over the same data.
-/

namespace Bikeshed

/-- Identity data of a real (locally importable) Python exception type:
its `__module__`, `__name__`, `repr()`, and whether it is a subclass of
`SyntaxError` resp. `Exception` (the two `issubclass` tests the sources
perform). -/
structure PyTypeId where
  module : String
  name : String
  rep : String
  isSynSub : Bool
  isExcSub : Bool
  deriving DecidableEq, Repr

/-- Wire record produced by `exc_type_serialize`: the dict
with keys `module`, `name`, `repr`. -/
structure ExcTypeRecord where
  module : String
  name : String
  rep : String
  deriving DecidableEq, Repr

/-- One stack frame as carried by `traceback.FrameSummary`:
filename, line number, function name, source line, and the
already-stringified locals snapshot (absent = Python `None`). -/
structure FrameRec where
  filename : String
  lineno : Nat
  name : String
  line : Option String
  locals : Option (List (String × String))
  deriving DecidableEq, Repr

/-- The seven syntax-error attributes a `TracebackException` carries for
`SyntaxError` subclasses (`filename`, `lineno`, `end_lineno`, `text`,
`offset`, `end_offset`, `msg`).  CPython stores line numbers as strings
on `TracebackException`, so every field is an optional string; `none`
models an absent attribute (`getattr(te, name, None)` yields `None`). -/
structure SynFields where
  filename : Option String
  lineno : Option String
  endLineno : Option String
  text : Option String
  offset : Option String
  endOffset : Option String
  msg : Option String
  deriving DecidableEq, Repr

/-- All-absent syntax attributes, as found on a `TracebackException`
built from a non-syntax exception. -/
def SynFields.empty : SynFields := ⟨none, none, none, none, none, none, none⟩

/-- A live in-process Python exception object: its type, its `str()`
rendering, its `__cause__` / `__context__` chain, the
`__suppress_context__` flag, its attached traceback frames and (for
syntax-class exceptions) syntax metadata. -/
inductive PyExc where
  | mk (ty : PyTypeId) (msg : String) (cause : Option PyExc)
      (context : Option PyExc) (suppress : Bool) (stack : List FrameRec)
      (syn : SynFields)

def PyExc.ty : PyExc → PyTypeId
  | .mk t _ _ _ _ _ _ => t

def PyExc.msg : PyExc → String
  | .mk _ m _ _ _ _ _ => m

def PyExc.cause : PyExc → Option PyExc
  | .mk _ _ c _ _ _ _ => c

def PyExc.context : PyExc → Option PyExc
  | .mk _ _ _ x _ _ _ => x

def PyExc.suppress : PyExc → Bool
  | .mk _ _ _ _ s _ _ => s

def PyExc.stack : PyExc → List FrameRec
  | .mk _ _ _ _ _ st _ => st

def PyExc.syn : PyExc → SynFields
  | .mk _ _ _ _ _ _ sy => sy

/-- In-memory `traceback.TracebackException` as produced by
`TracebackException.from_exception`: same shape as the exception, with
the type held directly (always a real type on this side). -/
inductive TBException where
  | mk (excType : PyTypeId) (cause : Option TBException)
      (context : Option TBException) (suppress : Bool) (str : String)
      (stack : List FrameRec) (syn : SynFields)

def TBException.excType : TBException → PyTypeId
  | .mk t _ _ _ _ _ _ => t

def TBException.cause : TBException → Option TBException
  | .mk _ c _ _ _ _ _ => c

def TBException.context : TBException → Option TBException
  | .mk _ _ x _ _ _ _ => x

def TBException.suppress : TBException → Bool
  | .mk _ _ _ s _ _ _ => s

def TBException.str : TBException → String
  | .mk _ _ _ _ s _ _ => s

def TBException.stack : TBException → List FrameRec
  | .mk _ _ _ _ _ st _ => st

def TBException.syn : TBException → SynFields
  | .mk _ _ _ _ _ _ sy => sy

/-- Model of `traceback.TracebackException.from_exception`: copies
the exception type, `str()` text, suppress flag and frames, recurses
into `__cause__` and `__context__`, and captures the syntax attributes
exactly when the exception type subclasses `SyntaxError` (CPython sets
those attributes only in that case). -/
def from_exception (e : PyExc) : TBException :=
  match e with
  | .mk ty msg c x sup st sy =>
    .mk ty
      (match c with
       | none => none
       | some c' => some (from_exception c'))
      (match x with
       | none => none
       | some x' => some (from_exception x'))
      sup msg st (if ty.isSynSub then sy else SynFields.empty)

/-- Result of exception-type resolution on the receiving side.  Python
keeps this dynamically typed: `gomma.exc_type_deserialize` returns a real
type or a `FakeException`-created placeholder type, while
`shed.exc_type_deserialize` returns a real type or the plain `repr`
string.  The three constructors cover all three runtime shapes. -/
inductive TBType where
  | real (t : PyTypeId)
  | fake (module : String) (name : String) (rep : String)
  | strOnly (s : String)
  deriving DecidableEq, Repr

/-- The `__name__` attribute of a resolved type; a plain string has no
`__name__` (accessing it would raise `AttributeError`), hence `none`. -/
def TBType.typeName : TBType → Option String
  | .real t => some t.name
  | .fake _ n _ => some n
  | .strOnly _ => none

/-- The `__module__` attribute of a resolved type. -/
def TBType.typeModule : TBType → Option String
  | .real t => some t.module
  | .fake m _ _ => some m
  | .strOnly _ => none

/-- Whether the resolved value is a subclass of `Exception`.
`FakeException.create` builds the placeholder with bases `(Exception,)`,
so a fake type always is; a plain string is not a class at all. -/
def TBType.isExcSub : TBType → Bool
  | .real t => t.isExcSub
  | .fake _ _ _ => true
  | .strOnly _ => false

/-- The `repr` attribute `FakeException.create` stores on the
placeholder type (`fake.repr = reprstr`); real types and plain strings
carry no such attribute. -/
def TBType.storedRepr : TBType → Option String
  | .real _ => none
  | .fake _ _ r => some r
  | .strOnly _ => none

/-- Model of the importable local environment:
`importlib.import_module(module)` followed by `getattr(mod, name)`,
collapsing `ImportError` / `AttributeError` into `none`. -/
def ImportEnv : Type := String → String → Option PyTypeId

/-- `TracebackException` value as rebuilt by either deserializer: same
shape as `TBException` but the `exc_type` slot holds a resolution
result rather than necessarily a real type. -/
inductive DTBException where
  | mk (excType : TBType) (cause : Option DTBException)
      (context : Option DTBException) (suppress : Bool) (str : String)
      (stack : List FrameRec) (syn : SynFields)

def DTBException.excType : DTBException → TBType
  | .mk t _ _ _ _ _ _ => t

def DTBException.cause : DTBException → Option DTBException
  | .mk _ c _ _ _ _ _ => c

def DTBException.context : DTBException → Option DTBException
  | .mk _ _ x _ _ _ _ => x

def DTBException.suppress : DTBException → Bool
  | .mk _ _ _ s _ _ _ => s

def DTBException.str : DTBException → String
  | .mk _ _ _ _ s _ _ => s

def DTBException.stack : DTBException → List FrameRec
  | .mk _ _ _ _ _ st _ => st

def DTBException.syn : DTBException → SynFields
  | .mk _ _ _ _ _ _ sy => sy

/-- Shared `exc_type_serialize`: record the type's `__module__`,
`__name__` and `repr()` (identical in both modules). -/
def exc_type_serialize (t : PyTypeId) : ExcTypeRecord :=
  ⟨t.module, t.name, t.rep⟩

/-- Shared `frame_summary_serialize`: the five-element list
`[filename, lineno, name, line, locals]` read off a `FrameSummary`. -/
def frame_summary_serialize (f : FrameRec) : FrameRec :=
  ⟨f.filename, f.lineno, f.name, f.line, f.locals⟩

/-- Model of CPython `repr` on a short plain string (the
`FrameSummary` constructor stores `{k: repr(v)}` over the supplied
locals); escaping of special characters is not modelled as no claim
depends on it. -/
def pyStrRepr (s : String) : String :=
  "q" ++ s ++ "q"

/-- Shared `frame_summary_deserialize`: rebuild a `FrameSummary` from
the five-element list.  The CPython constructor re-applies `repr` to
every supplied locals value. -/
def frame_summary_deserialize (f : FrameRec) : FrameRec :=
  ⟨f.filename, f.lineno, f.name, f.line,
    f.locals.map (List.map (fun kv => (kv.1, pyStrRepr kv.2)))⟩

/-- Shared `stack_summary_serialize`. -/
def stack_summary_serialize (st : List FrameRec) : List FrameRec :=
  st.map frame_summary_serialize

/-- Shared `stack_summary_deserialize`. -/
def stack_summary_deserialize (st : List FrameRec) : List FrameRec :=
  st.map frame_summary_deserialize

/-- The version string both modules accept. -/
def tbTag : String := "TracebackException:1.0"

namespace Gomma

/-- Wire form of a `gomma` TracebackRecord: the dict built by
`gomma.traceback_exception_serialize`, with keys `type` (optional on
input, `te.get` supplies a default), `__cause__`, `__context__`,
`__suppress_context__`, `_str`, `stack`, `exc_type`, `syntax_error`. -/
inductive TBRecord where
  | mk (tag : Option String) (cause : Option TBRecord)
      (context : Option TBRecord) (suppress : Bool) (str : String)
      (stack : List FrameRec) (excType : ExcTypeRecord)
      (synErr : Option SynFields)

def TBRecord.tag : TBRecord → Option String
  | .mk t _ _ _ _ _ _ _ => t

def TBRecord.cause : TBRecord → Option TBRecord
  | .mk _ c _ _ _ _ _ _ => c

def TBRecord.context : TBRecord → Option TBRecord
  | .mk _ _ x _ _ _ _ _ => x

def TBRecord.suppress : TBRecord → Bool
  | .mk _ _ _ s _ _ _ _ => s

def TBRecord.str : TBRecord → String
  | .mk _ _ _ _ s _ _ _ => s

def TBRecord.stack : TBRecord → List FrameRec
  | .mk _ _ _ _ _ st _ _ => st

def TBRecord.excType : TBRecord → ExcTypeRecord
  | .mk _ _ _ _ _ _ et _ => et

def TBRecord.synErr : TBRecord → Option SynFields
  | .mk _ _ _ _ _ _ _ se => se

/-- Replace only the `type` key of a record. -/
def TBRecord.withTag (r : TBRecord) (t : Option String) : TBRecord :=
  match r with
  | .mk _ c x s str st et se => .mk t c x s str st et se

/-- Embedding of `gomma.exc_type_deserialize`: try the import"/"getattr
lookup; on `ImportError` / `AttributeError` fall back to
`FakeException.create(module, name, repr)`. -/
def exc_type_deserialize (env : ImportEnv) (r : ExcTypeRecord) : TBType :=
  match env r.module r.name with
  | some t => .real t
  | none => .fake r.module r.name r.rep

/-- Embedding of `gomma.traceback_exception_serialize`: emit the version
tag, recurse into truthy `__cause__` / `__context__`, serialize the
stack and the type, copy `__suppress_context__` and `_str`, and emit
the `syntax_error` sub-dict exactly when the type subclasses
`SyntaxError` (else `None`). -/
def traceback_exception_serialize (te : TBException) : TBRecord :=
  match te with
  | .mk et c x sup s st sy =>
    .mk (some tbTag)
      (match c with
       | none => none
       | some c' => some (traceback_exception_serialize c'))
      (match x with
       | none => none
       | some x' => some (traceback_exception_serialize x'))
      sup s (stack_summary_serialize st) (exc_type_serialize et)
      (if et.isSynSub then some sy else none)

mutual

/-- Embedding of `gomma.traceback_exception_deserialize`: check the
version tag (`te.get("type", default)` then `assert`, modelled as
`none` on failure), rebuild cause and context recursively (their
failures propagate), resolve `exc_type`, restore `__suppress_context__`
and `_str`, and restore the syntax attributes when `syntax_error` is
truthy — otherwise they stay absent, as on the dummy
`TracebackException` built from a fresh `RuntimeError`. -/
def traceback_exception_deserialize (env : ImportEnv) :
    TBRecord → Option DTBException
  | .mk tag c x sup s st et se =>
    if tag.getD tbTag = tbTag then
      match deserialize_child env c, deserialize_child env x with
      | some cd, some xd =>
        some (.mk (exc_type_deserialize env et) cd xd sup s
          (stack_summary_deserialize st) (se.getD SynFields.empty))
      | _, _ => none
    else none

/-- Recursive helper for the truthiness test
`traceback_exception_deserialize(te[k]) if te[k] else None`; a failure
inside a child aborts the parent. -/
def deserialize_child (env : ImportEnv) :
    Option TBRecord → Option (Option DTBException)
  | none => some none
  | some r => (traceback_exception_deserialize env r).map some

end

end Gomma

namespace Shed

/-- Wire form of a `shed` TracebackRecord: the dict built by
`shed.traceback_exception_serialize`, with keys `type`, `__cause__`,
`__context__`, `__suppress_context__`, `stack`, `exc_type` and the five
top-level syntax attributes `filename`, `lineno`, `text`, `offset`,
`msg` (no `_str`, no `end_lineno` / `end_offset`). -/
inductive TBRecord where
  | mk (tag : Option String) (cause : Option TBRecord)
      (context : Option TBRecord) (suppress : Bool)
      (stack : List FrameRec) (excType : ExcTypeRecord)
      (filename : Option String) (lineno : Option String)
      (text : Option String) (offset : Option String)
      (msg : Option String)

def TBRecord.tag : TBRecord → Option String
  | .mk t _ _ _ _ _ _ _ _ _ _ => t

def TBRecord.cause : TBRecord → Option TBRecord
  | .mk _ c _ _ _ _ _ _ _ _ _ => c

def TBRecord.context : TBRecord → Option TBRecord
  | .mk _ _ x _ _ _ _ _ _ _ _ => x

def TBRecord.excType : TBRecord → ExcTypeRecord
  | .mk _ _ _ _ _ et _ _ _ _ _ => et

/-- Replace only the `type` key of a record. -/
def TBRecord.withTag (r : TBRecord) (t : Option String) : TBRecord :=
  match r with
  | .mk _ c x s st et f l tx o m => .mk t c x s st et f l tx o m

/-- Embedding of `shed.exc_type_deserialize`: try the import"/"getattr
lookup; on `ImportError` / `AttributeError` return the `repr` string
itself (not a type). -/
def exc_type_deserialize (env : ImportEnv) (r : ExcTypeRecord) : TBType :=
  match env r.module r.name with
  | some t => .real t
  | none => .strOnly r.rep

/-- Embedding of `shed.traceback_exception_serialize`: emit the version
tag, recurse into truthy `__cause__` / `__context__`, copy
`__suppress_context__`, serialize the stack and the type, then copy
`filename`, `lineno`, `text`, `offset`, `msg` via
`getattr(te, name, None)`.  Note this variant does not emit `_str`. -/
def traceback_exception_serialize (te : TBException) : TBRecord :=
  match te with
  | .mk et c x sup _s st sy =>
    .mk (some tbTag)
      (match c with
       | none => none
       | some c' => some (traceback_exception_serialize c'))
      (match x with
       | none => none
       | some x' => some (traceback_exception_serialize x'))
      sup (stack_summary_serialize st) (exc_type_serialize et)
      sy.filename sy.lineno sy.text sy.offset sy.msg

mutual

/-- Embedding of `shed.traceback_exception_deserialize`: build the
dummy `TracebackException` from a fresh `RuntimeError` (its `_str` is
the empty string and it has no syntax attributes), check the version
tag, rebuild cause and context recursively, resolve `exc_type`, and
`setattr` the five syntax fields and `__suppress_context__` from the
record.  The dummy's `_str` is never overwritten (this variant does not
serialize `_str`), and `end_lineno` / `end_offset` stay absent. -/
def traceback_exception_deserialize (env : ImportEnv) :
    TBRecord → Option DTBException
  | .mk tag c x sup st et f l tx o m =>
    if tag.getD tbTag = tbTag then
      match deserialize_child env c, deserialize_child env x with
      | some cd, some xd =>
        some (.mk (exc_type_deserialize env et) cd xd sup ""
          (stack_summary_deserialize st) ⟨f, l, none, tx, o, none, m⟩)
      | _, _ => none
    else none

/-- Recursive helper for the child truthiness test, as in `Gomma`. -/
def deserialize_child (env : ImportEnv) :
    Option TBRecord → Option (Option DTBException)
  | none => some none
  | some r => (traceback_exception_deserialize env r).map some

end

end Shed

/-- Formatted traceback text of one exception (without its chain), as
produced by the CPython `traceback` module: header line, one rendered
line per frame, then `module.name: message`.  The repo code only stores
and compares these strings, so the exact rendering is uncritical. -/
def fmtOne (ty : PyTypeId) (msg : String) (stack : List FrameRec) :
    List String :=
  "Traceback (most recent call last):" ::
    stack.map (fun f =>
      "  File " ++ f.filename ++ ", line " ++ toString f.lineno ++
        ", in " ++ f.name) ++
    [ty.module ++ "." ++ ty.name ++ ": " ++ msg]

/-- Model of `traceback.format_exception(type(e), e, e.__traceback__)`:
format the cause chain (respecting `__suppress_context__`), then the
exception itself. -/
def format_exception (e : PyExc) : List String :=
  match e with
  | .mk ty msg c x sup st _ =>
    (match c with
     | some c' => format_exception c' ++
         ["", "The above exception was the direct cause of the following exception:", ""]
     | none =>
       match x with
       | some x' =>
         if sup then []
         else format_exception x' ++
           ["", "During handling of the above exception, another exception occurred:", ""]
       | none => []) ++ fmtOne ty msg st

/-- Rendering of a resolved exception-type slot in a formatted
traceback (a real type, a placeholder type, or — in the `shed`
variant — a bare string). -/
def TBType.displayName : TBType → String
  | .real t => t.module ++ "." ++ t.name
  | .fake m n _ => m ++ "." ++ n
  | .strOnly s => s

/-- Model of `TracebackException.format()` on a rebuilt
`DTBException`, mirroring `format_exception` above. -/
def dFormat (d : DTBException) : List String :=
  match d with
  | .mk ty c x sup s st _ =>
    (match c with
     | some c' => dFormat c' ++
         ["", "The above exception was the direct cause of the following exception:", ""]
     | none =>
       match x with
       | some x' =>
         if sup then []
         else dFormat x' ++
           ["", "During handling of the above exception, another exception occurred:", ""]
       | none => []) ++
    ("Traceback (most recent call last):" ::
      st.map (fun f =>
        "  File " ++ f.filename ++ ", line " ++ toString f.lineno ++
          ", in " ++ f.name) ++
      [ty.displayName ++ ": " ++ s])

/-- The `shed.rpctools.exc_tools.RemoteException` class identity. -/
def remoteExceptionTy : PyTypeId :=
  ⟨"shed.rpctools.exc_tools", "RemoteException",
    "class shed.rpctools.exc_tools.RemoteException", false, true⟩

/-- The `builtins.AssertionError` class identity (raised by the failed
version-tag `assert` in the deserializers). -/
def assertionErrorTy : PyTypeId :=
  ⟨"builtins", "AssertionError", "class builtins.AssertionError", false, true⟩

/-- The `builtins.IndexError` class identity (raised by `errors[0]` on
an empty list). -/
def indexErrorTy : PyTypeId :=
  ⟨"builtins", "IndexError", "class builtins.IndexError", false, true⟩

/-- A freshly raised `AssertionError` as it escapes
`raise_from_errors` when the version-tag assert fails. -/
def assertionErrorExc : PyExc :=
  .mk assertionErrorTy "" none none false [] SynFields.empty

/-- A freshly raised `IndexError` as produced by `errors[0]` on an
empty error list. -/
def indexErrorExc : PyExc :=
  .mk indexErrorTy "list index out of range" none none false []
    SynFields.empty

/-- Model of `RemoteException.FromTracebackException(tbe)` at the point
where `raise_from_errors` raises it: args are `(tbe, list(tbe.format()))`,
so `str()` of the instance renders both; the fresh raise gives it no
cause and no context.  CPython's exact `str` embeds an unstable object
address, modelled here by a deterministic rendering of the same data. -/
def RemoteException.FromTracebackException (tbe : DTBException) : PyExc :=
  .mk remoteExceptionTy
    (String.intercalate "; " (dFormat tbe)) none none false []
    SynFields.empty

/-- Model of `RemoteException.FromStrings(strings)` at the raise point:
args are `(list(strings),)`. -/
def RemoteException.FromStrings (strings : List String) : PyExc :=
  .mk remoteExceptionTy (String.intercalate "; " strings) none none false
    [] SynFields.empty

namespace Rpcwrap

/-- One entry of the envelope's `errors` list, in the three dict shapes
the source produces: `{"exception": e}` (live), `{"python_traceback_exception":
record, "error_strings": strings}` (serialized), and `{"error_strings":
strings}` (strings only). -/
inductive ErrorRec where
  | live (exc : PyExc)
  | serialized (tbr : Shed.TBRecord) (strings : List String)
  | stringsOnly (strings : List String)

/-- Whether the record still references a live exception object. -/
def ErrorRec.isLive : ErrorRec → Bool
  | .live _ => true
  | .serialized _ _ => false
  | .stringsOnly _ => false

/-- The wrapped-response envelope: a dict tagged
`_wrapped_response_ = "1.0"`, either `success = True` with a `result`
or `success = False` with an `errors` list. -/
inductive Envelope (V : Type) where
  | success (result : V)
  | failure (errors : List ErrorRec)

/-- Embedding of `wrap_exception`: a failure envelope with a single
live error record referencing the exception unchanged. -/
def wrap_exception {V : Type} (e : PyExc) : Envelope V :=
  .failure [.live e]

/-- Embedding of `wrap_result`. -/
def wrap_result {V : Type} (r : V) : Envelope V :=
  .success r

/-- Embedding of `error_sanitize`: when the record holds a (truthy)
`exception`, replace it by the serialized pair
`(traceback_exception_serialize(TracebackException.from_exception(exc)),
format_exception(...))`; any other record is returned unchanged
(`error.get("exception")` yields `None`). -/
def error_sanitize : ErrorRec → ErrorRec
  | .live e =>
    .serialized (Shed.traceback_exception_serialize (from_exception e))
      (format_exception e)
  | .serialized tbr strings => .serialized tbr strings
  | .stringsOnly strings => .stringsOnly strings

/-- Embedding of `wrapped_result_sanitize`: on a failure envelope,
sanitize every error record; success envelopes pass through. -/
def wrapped_result_sanitize {V : Type} : Envelope V → Envelope V
  | .success r => .success r
  | .failure es => .failure (es.map error_sanitize)

/-- Whether every error record of the envelope is already in
transport-safe (non-live) form. -/
def envelopeSanitized {V : Type} : Envelope V → Bool
  | .success _ => true
  | .failure es => es.all (fun r => !r.isLive)

/-- Embedding of `raise_from_errors`: consult only `errors[0]`.  A live
record re-raises the stored exception object itself; a serialized
record deserializes the traceback record (the failed version-tag assert
escapes as an `AssertionError`) and raises
`RemoteException.FromTracebackException`; a strings-only record raises
`RemoteException.FromStrings`; an empty list raises `IndexError` from
the `errors[0]` subscript.  In every case an exception is raised, so
the model returns the raised exception. -/
def raise_from_errors (env : ImportEnv) : List ErrorRec → PyExc
  | [] => indexErrorExc
  | .live e :: _ => e
  | .serialized tbr _ :: _ =>
    match Shed.traceback_exception_deserialize env tbr with
    | some tbe => RemoteException.FromTracebackException tbe
    | none => assertionErrorExc
  | .stringsOnly strings :: _ => RemoteException.FromStrings strings

/-- A transport value: either a plain (non-envelope) value or a dict
carrying the `_wrapped_response_` tag. -/
inductive RpcValue (V : Type) where
  | plain (v : V)
  | wrapped (w : Envelope V)

/-- Embedding of `unwrap_response`: plain values pass through; a
success envelope returns its `result`; a failure envelope always
raises, via `raise_from_errors`. -/
def unwrap_response {V : Type} (env : ImportEnv) :
    RpcValue V → Except PyExc (RpcValue V)
  | .plain v => .ok (.plain v)
  | .wrapped (.success r) => .ok (.plain r)
  | .wrapped (.failure es) => .error (raise_from_errors env es)

/-- Embedding of `wrap_rpc_handler`.  The target's outcome is either a
value or a raised exception; `except Exception` catches exactly the
exceptions whose type subclasses `Exception`, reports to the optional
error handler (modelled by the returned invocation list) and returns
the sanitized failure envelope; anything else propagates. -/
def wrap_rpc_handler {V : Type} (hasHandler : Bool)
    (outcome : Except PyExc V) :
    Except PyExc (Envelope V × List PyExc) :=
  match outcome with
  | .ok r => .ok (wrap_result r, [])
  | .error e =>
    if e.ty.isExcSub then
      .ok (wrapped_result_sanitize (wrap_exception e),
        if hasHandler then [e] else [])
    else .error e

/-- Embedding of `async_wrap_rpc_handler`: textually identical body;
the single `await` of the inner operation is transparent in this
synchronous model. -/
def async_wrap_rpc_handler {V : Type} (hasHandler : Bool)
    (outcome : Except PyExc V) :
    Except PyExc (Envelope V × List PyExc) :=
  match outcome with
  | .ok r => .ok (wrap_result r, [])
  | .error e =>
    if e.ty.isExcSub then
      .ok (wrapped_result_sanitize (wrap_exception e),
        if hasHandler then [e] else [])
    else .error e

end Rpcwrap

namespace Heap

/-- One mutable `TracebackException` object on the Python heap, with
`__cause__` / `__context__` as references (addresses) so that mutation
can create shared or cyclic chains, exactly what
`traceback_exception_serialize` may be handed. -/
structure TBENode where
  excType : PyTypeId
  cause : Option Nat
  context : Option Nat
  suppress : Bool
  str : String
  stack : List FrameRec
  syn : SynFields

/-- The heap of `TracebackException` objects. -/
def TBHeap : Type := Nat → Option TBENode

/-- Embedding of `gomma.traceback_exception_serialize` run over the
object heap: the source recursion carries no depth or seen guard, so
its operational behaviour is captured by a fuel parameter —
`none` at every fuel amount is divergence (in CPython the interpreter
recursion limit eventually raises `RecursionError`), while a successful
run at some fuel is termination with that record. -/
def serializeFuel (h : TBHeap) : Nat → Nat → Option Gomma.TBRecord
  | _, 0 => none
  | a, Nat.succ fuel =>
    match h a with
    | none => none
    | some nd =>
      match
        (match nd.cause with
         | none => some none
         | some ca => (serializeFuel h ca fuel).map some),
        (match nd.context with
         | none => some none
         | some cx => (serializeFuel h cx fuel).map some) with
      | some c, some x =>
        some (.mk (some tbTag) c x nd.suppress nd.str
          (stack_summary_serialize nd.stack) (exc_type_serialize nd.excType)
          (if nd.excType.isSynSub then some nd.syn else none))
      | _, _ => none

/-- A heap address is well formed at depth `n` when its node exists and
its cause/context chains are well formed at smaller depth: this is
exactly acyclicity of the reachable chain, witnessed by a bound. -/
def heapWF (h : TBHeap) : Nat → Nat → Bool
  | _, 0 => false
  | a, Nat.succ n =>
    match h a with
    | none => false
    | some nd =>
      (match nd.cause with
       | none => true
       | some ca => heapWF h ca n) &&
      (match nd.context with
       | none => true
       | some cx => heapWF h cx n)

/-- The serialization walk diverges at an address when no amount of
fuel completes it. -/
def DivergesAt (h : TBHeap) (a : Nat) : Prop :=
  ∀ n, serializeFuel h a n = none

/-- A single `TracebackException` whose `__cause__` field has been
made to point back at the object itself (`te.__cause__ = te`). -/
def selfLoopHeap : TBHeap := fun a =>
  if a = 0 then
    some ⟨⟨"builtins", "RuntimeError", "class builtins.RuntimeError",
      false, true⟩, some 0, none, false, "boom", [], SynFields.empty⟩
  else none

/-- A two-node acyclic chain (an exception with one cause). -/
def chainHeap : TBHeap := fun a =>
  if a = 0 then
    some ⟨⟨"builtins", "RuntimeError", "class builtins.RuntimeError",
      false, true⟩, some 1, none, false, "bad timing", [], SynFields.empty⟩
  else if a = 1 then
    some ⟨⟨"builtins", "ZeroDivisionError",
      "class builtins.ZeroDivisionError", false, true⟩, none, none,
      false, "division by zero", [], SynFields.empty⟩
  else none

/-- The envelope dict as a mutable object: all four possible keys of
the dicts built by `wrap_result` / `wrap_exception`. -/
structure EnvDict (V : Type) where
  wrappedTag : Option String
  success : Bool
  result : Option V
  errors : Option (List Rpcwrap.ErrorRec)

/-- A heap of envelope dicts. -/
def EnvHeap (V : Type) : Type := Nat → Option (EnvDict V)

/-- Embedding of `wrapped_result_sanitize` at the object level: the
function reassigns the `errors` key of the very dict it was handed
(`wrapped["errors"] = [...]`) when `success` is falsy, and returns that
same object. -/
def wrapped_result_sanitize_heap {V : Type} (σ : EnvHeap V) (a : Nat) :
    EnvHeap V × Nat :=
  match σ a with
  | none => (σ, a)
  | some w =>
    if w.success then (σ, a)
    else
      ((fun b => if b = a then
          some { w with errors := w.errors.map (List.map Rpcwrap.error_sanitize) }
        else σ b), a)

end Heap

/-- Size of a `TracebackException` tree, used as an induction measure
for the round-trip proofs. -/
def TBException.size : TBException → Nat
  | .mk _ c x _ _ _ _ =>
    (match c with
     | none => 0
     | some c' => c'.size) +
    (match x with
     | none => 0
     | some x' => x'.size) + 1

/-- The `builtins.RuntimeError` class identity. -/
def runtimeErrorTy : PyTypeId :=
  ⟨"builtins", "RuntimeError", "class builtins.RuntimeError", false, true⟩

/-- The `builtins.ZeroDivisionError` class identity. -/
def zeroDivisionErrorTy : PyTypeId :=
  ⟨"builtins", "ZeroDivisionError", "class builtins.ZeroDivisionError",
    false, true⟩

/-- A concrete import environment containing the builtins used by the
test scenarios plus the locally importable `RemoteException`. -/
def env0 : ImportEnv := fun m n =>
  if m = "builtins" then
    if n = "RuntimeError" then some runtimeErrorTy
    else if n = "ZeroDivisionError" then some zeroDivisionErrorTy
    else none
  else if m = "shed.rpctools.exc_tools" then
    if n = "RemoteException" then some remoteExceptionTy else none
  else none

/-- An import environment in which no lookup succeeds. -/
def envEmpty : ImportEnv := fun _ _ => none

/-- The unknown-type record of `test_dynamic_exception`: module
`lumber`, name `LumberError`, with the repr captured before the record
was renamed. -/
def lumberRec : ExcTypeRecord :=
  ⟨"lumber", "LumberError", "class builtins.ZeroDivisionError"⟩

/-- The exception of the repository's re-wrap test scenario:
`RuntimeError("bad timing")` raised inside `problemhandler`. -/
def c1Exc : PyExc :=
  .mk runtimeErrorTy "bad timing" none none false
    [⟨"test_rpcwrap.py", 9, "problemhandler", some "raise RuntimeError",
      none⟩]
    SynFields.empty

/-- The envelope `W1` the handle-side adapter returns for that raising
target. -/
def c1W1 : Rpcwrap.Envelope String :=
  match Rpcwrap.wrap_rpc_handler true (.error c1Exc) with
  | .ok (w, _) => w
  | .error _ => .failure []

/-- The error list of `W1`. -/
def c1Errors : List Rpcwrap.ErrorRec :=
  match c1W1 with
  | .failure es => es
  | .success _ => []

/-- The `RemoteException` raised by `unwrap_response(W1)`. -/
def c1Remote : PyExc := Rpcwrap.raise_from_errors env0 c1Errors

/-- The envelope obtained by re-wrapping and re-sanitizing that
`RemoteException`. -/
def c1W2 : Rpcwrap.Envelope String :=
  Rpcwrap.wrapped_result_sanitize (Rpcwrap.wrap_exception c1Remote)

/-- The `exc_type` name recorded in the first serialized error record
of an envelope. -/
def firstErrTypeName {V : Type} : Rpcwrap.Envelope V → Option String
  | .failure (.serialized tbr _ :: _) => some tbr.excType.name
  | _ => none

/-- A `gomma` record carrying an unrecognized future version tag. -/
def c4GommaRec : Gomma.TBRecord :=
  .mk (some "TracebackException:2.0") none none false "boom" []
    (exc_type_serialize runtimeErrorTy) none

/-- A `shed` record carrying an unrecognized future version tag. -/
def c4ShedRec : Shed.TBRecord :=
  .mk (some "TracebackException:2.0") none none false []
    (exc_type_serialize runtimeErrorTy) none none none none none

/-- A `gomma` record with no `type` key at all. -/
def c10GommaRec : Gomma.TBRecord :=
  .mk none none none false "boom" []
    (exc_type_serialize runtimeErrorTy) none

/-- A `shed` record with no `type` key at all. -/
def c10ShedRec : Shed.TBRecord :=
  .mk none none none false []
    (exc_type_serialize runtimeErrorTy) none none none none none

/-- A one-envelope heap holding an unsanitized failure envelope. -/
def c9Dict : Heap.EnvDict String :=
  ⟨some "1.0", false, none, some [.live c1Exc]⟩

/-- The heap with `c9Dict` stored at address `0`. -/
def c9Heap : Heap.EnvHeap String := fun n =>
  if n = 0 then some c9Dict else none

/-- Sanitizing an error record twice is the same as sanitizing it
once: a live record becomes serialized, and serialized or strings-only
records are returned unchanged because `error.get("exception")` yields
`None` on them. -/
theorem error_sanitize_idem (r : Rpcwrap.ErrorRec) :
    Rpcwrap.error_sanitize (Rpcwrap.error_sanitize r) =
      Rpcwrap.error_sanitize r := by
  cases r <;> rfl

/-- C2: `gomma.exc_type_deserialize` is total on `ExcTypeRecord`s
(lookup failure is caught, never propagated), and when the (module,
name) pair resolves to no local type it returns the
`FakeException.create` placeholder: a subclass of `Exception` whose
`__name__` is the record's name, whose `__module__` is the record's
module, and whose stored `repr` attribute is the record's original
repr string. -/
theorem exc_type_deserialize_placeholder (env : ImportEnv)
    (r : ExcTypeRecord) (h : env r.module r.name = none) :
    Gomma.exc_type_deserialize env r = .fake r.module r.name r.rep ∧
    (Gomma.exc_type_deserialize env r).isExcSub = true ∧
    (Gomma.exc_type_deserialize env r).typeName = some r.name ∧
    (Gomma.exc_type_deserialize env r).typeModule = some r.module ∧
    (Gomma.exc_type_deserialize env r).storedRepr = some r.rep := by
  simp [Gomma.exc_type_deserialize, h, TBType.isExcSub, TBType.typeName,
    TBType.typeModule, TBType.storedRepr]

/-- Witness for C2 at the `lumber.LumberError` record of the
repository's own test, in an environment where the lookup fails. -/
theorem exc_type_deserialize_placeholder_witness :
    Gomma.exc_type_deserialize envEmpty lumberRec =
      .fake "lumber" "LumberError" "class builtins.ZeroDivisionError" ∧
    (Gomma.exc_type_deserialize envEmpty lumberRec).isExcSub = true ∧
    (Gomma.exc_type_deserialize envEmpty lumberRec).typeName =
      some "LumberError" ∧
    (Gomma.exc_type_deserialize envEmpty lumberRec).typeModule =
      some "lumber" ∧
    (Gomma.exc_type_deserialize envEmpty lumberRec).storedRepr =
      some "class builtins.ZeroDivisionError" :=
  exc_type_deserialize_placeholder envEmpty lumberRec rfl

/-- C3: `wrapped_result_sanitize` leaves success envelopes untouched
and is idempotent on every envelope. -/
theorem wrapped_result_sanitize_idempotent (V : Type) :
    (∀ r : V,
      Rpcwrap.wrapped_result_sanitize (Rpcwrap.Envelope.success r) =
        Rpcwrap.Envelope.success r) ∧
    (∀ w : Rpcwrap.Envelope V,
      Rpcwrap.wrapped_result_sanitize (Rpcwrap.wrapped_result_sanitize w) =
        Rpcwrap.wrapped_result_sanitize w) := by
  refine ⟨fun r => rfl, fun w => ?_⟩
  cases w with
  | success r => rfl
  | failure es =>
    simp only [Rpcwrap.wrapped_result_sanitize, List.map_map,
      Rpcwrap.Envelope.failure.injEq]
    exact List.map_congr_left fun r _ => error_sanitize_idem r

/-- C7: unwrapping an unsanitized failure envelope re-raises the very
exception value stored by `wrap_exception` (the embedding passes the
stored object through unchanged), and unwrapping any failure envelope
always raises — it never returns a value. -/
theorem unwrap_wrap_exception_identity :
    ∀ (V : Type) (env : ImportEnv) (e : PyExc)
      (es : List Rpcwrap.ErrorRec),
      Rpcwrap.unwrap_response env
        (Rpcwrap.RpcValue.wrapped (Rpcwrap.wrap_exception (V := V) e)) =
        Except.error e ∧
      ∃ ex, Rpcwrap.unwrap_response (V := V) env
        (Rpcwrap.RpcValue.wrapped (Rpcwrap.Envelope.failure es)) =
          Except.error ex :=
  fun _ env _ es => ⟨rfl, ⟨Rpcwrap.raise_from_errors env es, rfl⟩⟩

/-- C8: when the wrapped target raises an exception of the general
`Exception` hierarchy, both handle-side adapters catch it, invoke the
optional error callback with the live exception exactly when a
callback is supplied, and return (never re-raise) the sanitized
failure envelope; every error record of that envelope is in
transport-safe form. -/
theorem wrap_rpc_handler_catches (V : Type) (hasHandler : Bool)
    (e : PyExc) (h : e.ty.isExcSub = true) :
    Rpcwrap.wrap_rpc_handler (V := V) hasHandler (Except.error e) =
      Except.ok
        (Rpcwrap.wrapped_result_sanitize (Rpcwrap.wrap_exception e),
          if hasHandler then [e] else []) ∧
    Rpcwrap.async_wrap_rpc_handler (V := V) hasHandler (Except.error e) =
      Except.ok
        (Rpcwrap.wrapped_result_sanitize (Rpcwrap.wrap_exception e),
          if hasHandler then [e] else []) ∧
    Rpcwrap.envelopeSanitized
      (Rpcwrap.wrapped_result_sanitize
        (Rpcwrap.wrap_exception (V := V) e)) = true := by
  refine ⟨?_, ?_, rfl⟩ <;>
    simp [Rpcwrap.wrap_rpc_handler, Rpcwrap.async_wrap_rpc_handler, h]

/-- Witness for C8 on the concrete raising scenario of the repository
tests, with an error callback supplied. -/
theorem wrap_rpc_handler_catches_witness :
    Rpcwrap.wrap_rpc_handler (V := String) true (Except.error c1Exc) =
      Except.ok
        (Rpcwrap.wrapped_result_sanitize (Rpcwrap.wrap_exception c1Exc),
          [c1Exc]) ∧
    Rpcwrap.envelopeSanitized
      (Rpcwrap.wrapped_result_sanitize
        (Rpcwrap.wrap_exception (V := String) c1Exc)) = true := by
  have h := wrap_rpc_handler_catches String true c1Exc rfl
  exact ⟨h.1, h.2.2⟩

/-- C9: `wrapped_result_sanitize` mutates its argument in place: it
returns the very address it was handed; at that address only the
`errors` key changes (and only on failure envelopes — the tag,
`success` and `result` keys are preserved, and a success envelope is
untouched); every other heap object is left exactly as it was, so no
pre-sanitization copy of the envelope survives. -/
theorem wrapped_result_sanitize_in_place (V : Type)
    (σ : Heap.EnvHeap V) (a : Nat) (w : Heap.EnvDict V)
    (h : σ a = some w) :
    (Heap.wrapped_result_sanitize_heap σ a).2 = a ∧
    (Heap.wrapped_result_sanitize_heap σ a).1 a =
      some { w with
        errors :=
          if w.success then w.errors
          else w.errors.map (List.map Rpcwrap.error_sanitize) } ∧
    (∀ b, b ≠ a → (Heap.wrapped_result_sanitize_heap σ a).1 b = σ b) := by
  by_cases hs : w.success
  · have hred : Heap.wrapped_result_sanitize_heap σ a = (σ, a) := by
      unfold Heap.wrapped_result_sanitize_heap
      rw [h]
      exact if_pos hs
    rw [hred]
    refine ⟨rfl, ?_, fun b _ => rfl⟩
    show σ a = _
    rw [h]
    simp only [hs, if_true]
    cases w
    simp_all
  · have hred : Heap.wrapped_result_sanitize_heap σ a =
        ((fun b => if b = a then
            some { w with
              errors := w.errors.map (List.map Rpcwrap.error_sanitize) }
          else σ b), a) := by
      unfold Heap.wrapped_result_sanitize_heap
      rw [h]
      exact if_neg hs
    rw [hred]
    refine ⟨rfl, ?_, fun b hb => ?_⟩
    · simp [hs]
    · simp [hb]

/-- Witness for C9 on a concrete one-envelope heap holding an
unsanitized failure envelope at address `0`. -/
theorem wrapped_result_sanitize_in_place_witness :
    (Heap.wrapped_result_sanitize_heap c9Heap 0).2 = 0 ∧
    (Heap.wrapped_result_sanitize_heap c9Heap 0).1 0 =
      some { c9Dict with
        errors :=
          if c9Dict.success then c9Dict.errors
          else c9Dict.errors.map (List.map Rpcwrap.error_sanitize) } ∧
    (∀ b, b ≠ 0 →
      (Heap.wrapped_result_sanitize_heap c9Heap 0).1 b = c9Heap b) :=
  wrapped_result_sanitize_in_place String c9Heap 0 c9Dict rfl

/-- C10: a TracebackRecord with no `type` key at all is not rejected:
`te.get("type", "TracebackException:1.0")` substitutes the recognized
tag, so deserialization behaves exactly as if the recognized tag were
present, in both modules. -/
theorem deserialize_missing_tag_defaults (env : ImportEnv)
    (tg : Gomma.TBRecord) (ts : Shed.TBRecord)
    (hg : tg.tag = none) (hs : ts.tag = none) :
    Gomma.traceback_exception_deserialize env tg =
      Gomma.traceback_exception_deserialize env (tg.withTag (some tbTag)) ∧
    Shed.traceback_exception_deserialize env ts =
      Shed.traceback_exception_deserialize env (ts.withTag (some tbTag)) := by
  constructor
  · cases tg with
    | mk tag c x sup s st et se =>
      cases hg
      rfl
  · cases ts with
    | mk tag c x sup st et f l tx o m =>
      cases hs
      rfl

/-- Witness for C10 on concrete tag-less records: the equality from
the theorem, plus evaluation showing both records are in fact decoded
successfully. -/
theorem deserialize_missing_tag_defaults_witness :
    (Gomma.traceback_exception_deserialize envEmpty c10GommaRec =
      Gomma.traceback_exception_deserialize envEmpty
        (c10GommaRec.withTag (some tbTag)) ∧
    Shed.traceback_exception_deserialize envEmpty c10ShedRec =
      Shed.traceback_exception_deserialize envEmpty
        (c10ShedRec.withTag (some tbTag))) ∧
    (Gomma.traceback_exception_deserialize envEmpty c10GommaRec).isSome =
      true ∧
    (Shed.traceback_exception_deserialize envEmpty c10ShedRec).isSome =
      true :=
  ⟨deserialize_missing_tag_defaults envEmpty c10GommaRec c10ShedRec rfl
      rfl,
    rfl, rfl⟩

/-- C4: a TracebackRecord whose `type` tag is present but not the
recognized `TracebackException:1.0` makes deserialization fail fast in
both modules: the record itself is rejected (the `assert` fires before
any field is interpreted), and so is any record that contains it as
`__cause__` or `__context__` — the child's failure aborts the parent. -/
theorem deserialize_unknown_tag_fails (env : ImportEnv)
    (tg : Gomma.TBRecord) (ts : Shed.TBRecord) (s t : String)
    (hg : tg.tag = some s) (hgs : s ≠ tbTag)
    (hs : ts.tag = some t) (hts : t ≠ tbTag) :
    Gomma.traceback_exception_deserialize env tg = none ∧
    (∀ p : Gomma.TBRecord, p.cause = some tg →
      Gomma.traceback_exception_deserialize env p = none) ∧
    (∀ p : Gomma.TBRecord, p.context = some tg →
      Gomma.traceback_exception_deserialize env p = none) ∧
    Shed.traceback_exception_deserialize env ts = none ∧
    (∀ p : Shed.TBRecord, p.cause = some ts →
      Shed.traceback_exception_deserialize env p = none) ∧
    (∀ p : Shed.TBRecord, p.context = some ts →
      Shed.traceback_exception_deserialize env p = none) := by
  have hgnone : Gomma.traceback_exception_deserialize env tg = none := by
    cases tg with
    | mk tag c x sup str st et se =>
      cases hg
      simp [Gomma.traceback_exception_deserialize, hgs]
  have hsnone : Shed.traceback_exception_deserialize env ts = none := by
    cases ts with
    | mk tag c x sup st et f l tx o m =>
      cases hs
      simp [Shed.traceback_exception_deserialize, hts]
  refine ⟨hgnone, fun p hp => ?_, fun p hp => ?_, hsnone,
    fun p hp => ?_, fun p hp => ?_⟩
  · cases p with
    | mk tag c x sup str st et se =>
      cases hp
      simp only [Gomma.traceback_exception_deserialize,
        Gomma.deserialize_child, hgnone, Option.map_none']
      split
      · rfl
      · rfl
  · cases p with
    | mk tag c x sup str st et se =>
      cases hp
      simp only [Gomma.traceback_exception_deserialize,
        Gomma.deserialize_child, hgnone, Option.map_none']
      split
      · split <;> simp_all
      · rfl
  · cases p with
    | mk tag c x sup st et f l tx o m =>
      cases hp
      simp only [Shed.traceback_exception_deserialize,
        Shed.deserialize_child, hsnone, Option.map_none']
      split
      · rfl
      · rfl
  · cases p with
    | mk tag c x sup st et f l tx o m =>
      cases hp
      simp only [Shed.traceback_exception_deserialize,
        Shed.deserialize_child, hsnone, Option.map_none']
      split
      · split <;> simp_all
      · rfl

/-- Witness for C4 on concrete records tagged with the future version
`TracebackException:2.0`. -/
theorem deserialize_unknown_tag_fails_witness :
    Gomma.traceback_exception_deserialize envEmpty c4GommaRec = none ∧
    Shed.traceback_exception_deserialize envEmpty c4ShedRec = none := by
  have h := deserialize_unknown_tag_fails envEmpty c4GommaRec c4ShedRec
    "TracebackException:2.0" "TracebackException:2.0" rfl
    (by decide) rfl (by decide)
  exact ⟨h.1, h.2.2.2.1⟩

/-- C5 (amended): on every well-formed — acyclic — cause/context
chain, the recursive serialization walk terminates: any depth bound on
the chain is enough fuel for `serializeFuel` to produce a record. -/
theorem serialize_terminates_on_acyclic (h : Heap.TBHeap) (a n : Nat)
    (hwf : Heap.heapWF h a n = true) :
    (Heap.serializeFuel h a n).isSome := by
  induction n generalizing a with
  | zero => exact absurd hwf (by simp [Heap.heapWF])
  | succ k ih =>
    unfold Heap.heapWF at hwf
    unfold Heap.serializeFuel
    cases hnode : h a with
    | none =>
      rw [hnode] at hwf
      exact absurd hwf (by simp)
    | some nd =>
      rw [hnode] at hwf
      dsimp only at hwf ⊢
      rw [Bool.and_eq_true] at hwf
      obtain ⟨hc, hx⟩ := hwf
      cases hcause : nd.cause with
      | none =>
        cases hctx : nd.context with
        | none => simp
        | some cx =>
          rw [hctx] at hx
          have hxs := ih cx hx
          rw [Option.isSome_iff_exists] at hxs
          obtain ⟨r, hr⟩ := hxs
          simp [hr]
      | some ca =>
        rw [hcause] at hc
        have hcs := ih ca hc
        rw [Option.isSome_iff_exists] at hcs
        obtain ⟨rc, hrc⟩ := hcs
        cases hctx : nd.context with
        | none => simp [hrc]
        | some cx =>
          rw [hctx] at hx
          have hxs := ih cx hx
          rw [Option.isSome_iff_exists] at hxs
          obtain ⟨rx, hrx⟩ := hxs
          simp [hrc, hrx]

/-- Witness for the amended C5 on the concrete two-node acyclic chain
(an exception with one cause): depth bound 2 suffices. -/
theorem serialize_terminates_on_acyclic_witness :
    Heap.heapWF Bikeshed.Heap.chainHeap 0 2 = true ∧
    (Heap.serializeFuel Bikeshed.Heap.chainHeap 0 2).isSome :=
  ⟨rfl, serialize_terminates_on_acyclic Heap.chainHeap 0 2 rfl⟩

/-- C5 counterexample: the source recursion carries no depth or
"seen" guard, so on a self-referential chain (`te.__cause__ = te`) the
walk does not terminate: no amount of fuel completes it. -/
theorem serialize_self_reference_diverges :
    Heap.DivergesAt Heap.selfLoopHeap 0 := by
  intro n
  induction n with
  | zero => rfl
  | succ k ih =>
    unfold Heap.serializeFuel
    rw [show Heap.selfLoopHeap 0 = some ⟨⟨"builtins", "RuntimeError",
      "class builtins.RuntimeError", false, true⟩, some 0, none, false,
      "boom", [], SynFields.empty⟩ from rfl]
    simp [ih]

/-- Round-trip helper: a record produced by the `gomma` serializer
always deserializes successfully, and the rebuilt value's syntax
attributes are exactly the record's `syntax_error` entry (or all
absent when that entry is null, as on the dummy). -/
theorem gomma_roundtrip_syn (env : ImportEnv) :
    ∀ (n : Nat) (te : TBException), te.size ≤ n →
      ∃ d, Gomma.traceback_exception_deserialize env
          (Gomma.traceback_exception_serialize te) = some d ∧
        d.syn = (Gomma.traceback_exception_serialize te).synErr.getD
          SynFields.empty := by
  intro n
  induction n with
  | zero =>
    intro te hle
    cases te with
    | mk et c x sup s st sy =>
      cases c <;> cases x <;> simp [TBException.size] at hle
  | succ k ih =>
    intro te hle
    cases te with
    | mk et c x sup s st sy =>
      cases c with
      | none =>
        cases x with
        | none => exact ⟨_, rfl, rfl⟩
        | some x' =>
          have hxle : x'.size ≤ k := by
            simp [TBException.size] at hle
            omega
          obtain ⟨dx, hdx, _⟩ := ih x' hxle
          refine ⟨.mk (Gomma.exc_type_deserialize env
              (exc_type_serialize et)) none (some dx) sup s
              (stack_summary_deserialize (stack_summary_serialize st))
              ((if et.isSynSub then some sy else none).getD
                SynFields.empty), ?_, rfl⟩
          simp only [Gomma.traceback_exception_serialize,
            Gomma.traceback_exception_deserialize,
            Gomma.deserialize_child, hdx, Option.map_some',
            Option.getD_some]
          simp
      | some c' =>
        have hcle : c'.size ≤ k := by
          cases x <;> simp [TBException.size] at hle <;> omega
        obtain ⟨dc, hdc, _⟩ := ih c' hcle
        cases x with
        | none =>
          refine ⟨.mk (Gomma.exc_type_deserialize env
              (exc_type_serialize et)) (some dc) none sup s
              (stack_summary_deserialize (stack_summary_serialize st))
              ((if et.isSynSub then some sy else none).getD
                SynFields.empty), ?_, rfl⟩
          simp only [Gomma.traceback_exception_serialize,
            Gomma.traceback_exception_deserialize,
            Gomma.deserialize_child, hdc, Option.map_some',
            Option.getD_some]
          simp
        | some x' =>
          have hxle : x'.size ≤ k := by
            simp [TBException.size] at hle
            omega
          obtain ⟨dx, hdx, _⟩ := ih x' hxle
          refine ⟨.mk (Gomma.exc_type_deserialize env
              (exc_type_serialize et)) (some dc) (some dx) sup s
              (stack_summary_deserialize (stack_summary_serialize st))
              ((if et.isSynSub then some sy else none).getD
                SynFields.empty), ?_, rfl⟩
          simp only [Gomma.traceback_exception_serialize,
            Gomma.traceback_exception_deserialize,
            Gomma.deserialize_child, hdc, hdx, Option.map_some',
            Option.getD_some]
          simp

/-- C6: serializing any exception emits the `syntax_error` field
exactly when the exception's type is syntax-class (for every non-syntax
exception the field is null), and both shapes survive a
serialize-then-deserialize round trip: the rebuilt value carries the
original syntax attributes for syntax-class exceptions and all-absent
attributes otherwise. -/
theorem tb_syn_fields_roundtrip (env : ImportEnv) (e : PyExc) :
    (Gomma.traceback_exception_serialize (from_exception e)).synErr =
      (if e.ty.isSynSub then some e.syn else none) ∧
    ∃ d, Gomma.traceback_exception_deserialize env
        (Gomma.traceback_exception_serialize (from_exception e)) =
          some d ∧
      d.syn = (if e.ty.isSynSub then e.syn else SynFields.empty) := by
  have h1 : (Gomma.traceback_exception_serialize
      (from_exception e)).synErr =
      (if e.ty.isSynSub then some e.syn else none) := by
    cases e with
    | mk ty msg c x sup st sy =>
      have hshape : (Gomma.traceback_exception_serialize
          (from_exception (PyExc.mk ty msg c x sup st sy))).synErr =
          (if ty.isSynSub then some (if ty.isSynSub then sy
            else SynFields.empty) else none) := by
        rw [from_exception.eq_def]
        rw [Gomma.traceback_exception_serialize.eq_def]
        rfl
      rw [hshape]
      by_cases hsy : ty.isSynSub <;> simp [hsy, PyExc.ty, PyExc.syn]
  refine ⟨h1, ?_⟩
  obtain ⟨d, hd, hsyn⟩ := gomma_roundtrip_syn env
    (from_exception e).size (from_exception e) le_rfl
  refine ⟨d, hd, ?_⟩
  rw [hsyn, h1]
  by_cases hsy : e.ty.isSynSub <;> simp [hsy]

/-- C1: evaluation of the re-wrap pipeline at the repository's own
test scenario (`test_rewrap_raise_from_wrapped`).  `W1` is the
sanitized failure envelope the handle-side adapter produced for a
raised `RuntimeError`; unwrapping `W1` raises the `RemoteException`
`c1Remote`; but `sanitize(wrap_exception(c1Remote))` re-derives a fresh
`TracebackException` from the `RemoteException` object itself instead
of passing the retained record through, so the re-wrapped envelope
records exception type `RemoteException` where `W1` records
`RuntimeError`, and the two envelopes are not equal — the code violates
the re-wrap fixpoint its own test asserts. -/
theorem rewrap_not_fixpoint :
    Rpcwrap.unwrap_response env0 (Rpcwrap.RpcValue.wrapped c1W1) =
      Except.error c1Remote ∧
    firstErrTypeName c1W1 = some "RuntimeError" ∧
    firstErrTypeName c1W2 = some "RemoteException" ∧
    c1W2 ≠ c1W1 := by
  refine ⟨rfl, rfl, rfl, fun h => ?_⟩
  have h2 : firstErrTypeName c1W2 = some "RemoteException" := rfl
  rw [h, show firstErrTypeName c1W1 = some "RuntimeError" from rfl] at h2
  exact absurd h2 (by decide)

end Bikeshed
